import Mathlib

/-!
Verification development for the regulation-impact-to-spec-patch pipeline of
ASSURE CODE.  The definitions below are a shallow embedding of the TypeScript
source files `spec-patcher.service.ts`, `diff-engine.service.ts` and
`spec-generator.service.ts` (impact analyzer part).  External capabilities
(the Supabase database, the text-generation model, the embedding model) are
modelled as explicit oracle parameters: a `PatchEnv` / `ImpactEnv` record
carries the outcome each external call would produce, and the embedded
functions consume those outcomes exactly the way the source code consumes the
real responses.  JavaScript strings are modelled as Lean `String`; the few
string/regex operations the source uses are implemented below over the
character list of the string so that they compute by kernel reduction.
Numbers that carry similarity scores are modelled as `ℚ`; `Math.sqrt` is an
explicit function parameter `sqrtFn` since the exact square root is irrelevant
to every property proved here (only its zero set matters, and only for one
claim, which states the needed property as a hypothesis).
-/

/- ── String helpers (models of the JS string/regex operations used) ────── -/

/-- Model of JavaScript `String.prototype.split` with a one-character
separator, written over the character list so it reduces in the kernel. -/
def splitOnCharAux (sep : Char) : List Char → List Char → List String
  | [], acc => [String.mk acc.reverse]
  | c :: rest, acc =>
      if c = sep then String.mk acc.reverse :: splitOnCharAux sep rest []
      else splitOnCharAux sep rest (c :: acc)

/-- Split a string on a single separator character. -/
def splitOnChar (sep : Char) (s : String) : List String :=
  splitOnCharAux sep s.data []

/-- Model of `parseInt` restricted to all-digit strings, which is the only way
the source applies it (the strings come from a `\d+` regex group).  Returns
`none` when the string is empty or contains a non-digit. -/
def decDigitsToNat? (cs : List Char) : Option Nat :=
  if cs.isEmpty then none
  else if cs.all Char.isDigit then
    some (cs.foldl (fun n c => 10 * n + (c.toNat - '0'.toNat)) 0)
  else none

/-- Parse an all-digit string to a natural number (`none` otherwise). -/
def parseNatStr (s : String) : Option Nat := decDigitsToNat? s.data

/-- Model of JS `startsWith`. -/
def strStartsWith (s pre : String) : Bool := pre.data.isPrefixOf s.data

/-- Model of JS `endsWith`. -/
def strEndsWith (s suf : String) : Bool := suf.data.isSuffixOf s.data

/-- Drop the first `n` characters of a string. -/
def strDrop (s : String) (n : Nat) : String := String.mk (s.data.drop n)

/-- Drop the last `n` characters of a string. -/
def strDropRight (s : String) (n : Nat) : String := String.mk (s.data.take (s.data.length - n))

/-- Model of JS `String.prototype.trim`. -/
def strTrim (s : String) : String :=
  String.mk (((s.data.dropWhile Char.isWhitespace).reverse.dropWhile Char.isWhitespace).reverse)

/- ── Dynamic JSON payloads ─────────────────────────────────────────────── -/

/-- Dynamic JSON value: the five module payloads of a spec version are dynamic
JSON documents in the source (typed loosely as `any` at the patching layer). -/
inductive Json where
  | null
  | bool (b : Bool)
  | num (q : ℚ)
  | str (s : String)
  | arr (elems : List Json)
  | obj (fields : List (String × Json))

/-- Object field access (`payload.key`): `none` models JS `undefined`. -/
def Json.getField (j : Json) (key : String) : Option Json :=
  match j with
  | .obj fields => fields.lookup key
  | _ => none

/-- String field access with the `?? ''` defaulting used by the source's text
extraction: a missing or non-string field contributes the empty string. -/
def Json.getStr (j : Json) (key : String) : String :=
  match j.getField key with
  | some (.str s) => s
  | _ => ""

/-- Array field access with the `?? []` defaulting used by the source. -/
def Json.getArr (j : Json) (key : String) : List Json :=
  match j.getField key with
  | some (.arr xs) => xs
  | _ => []

/-- Clause-path segment: one field access or one array index. -/
inductive PathSeg where
  | field (name : String)
  | index (i : Nat)
deriving DecidableEq

/-- Parse the bracket groups of one clause-path segment, e.g. the part after
`controls` in `controls[0][1]`.  Each group must be digits followed by `]`. -/
def parseBracketGroups : List String → Option (List PathSeg)
  | [] => some []
  | s :: rest =>
      if strEndsWith s "]" then
        match parseNatStr (strDropRight s 1) with
        | some i =>
            match parseBracketGroups rest with
            | some tail => some (PathSeg.index i :: tail)
            | none => none
        | none => none
      else none

/-- Parse one dot-separated segment such as `encryptionControls[0]`. -/
def parsePathSegment (s : String) : Option (List PathSeg) :=
  match splitOnChar '[' s with
  | [] => none
  | name :: brs =>
      if name = "" then none
      else
        match parseBracketGroups brs with
        | some tail => some (PathSeg.field name :: tail)
        | none => none

/-- Modelled from the spec: the clause-path addressing utility (spec §9, parse
`a[0].b` into a traversal).  The source itself contains no such function — at
runtime clause paths are only interpreted by the text-generation capability —
so this definition follows the spec's description of dot-and-index paths.  It
is used only to state what value a diff's `clausePath` addresses. -/
def parseClausePath (path : String) : Option (List PathSeg) :=
  (splitOnChar '.' path).foldl
    (fun acc seg =>
      match acc with
      | none => none
      | some segs =>
          match parsePathSegment seg with
          | some more => some (segs ++ more)
          | none => none)
    (some [])

/-- Follow a parsed clause path through a JSON document. -/
def Json.atSegs : Json → List PathSeg → Option Json
  | j, [] => some j
  | j, PathSeg.field n :: rest =>
      match j.getField n with
      | some v => v.atSegs rest
      | none => none
  | Json.arr xs, PathSeg.index i :: rest =>
      match xs[i]? with
      | some v => v.atSegs rest
      | none => none
  | _, PathSeg.index _ :: _ => none

/-- Value actually present at a clause path in a module payload. -/
def valueAtClausePath (payload : Json) (path : String) : Option Json :=
  match parseClausePath path with
  | some segs => payload.atSegs segs
  | none => none

/- ── Data model (src/unnamed/part_000, types) ──────────────────────────── -/

/-- Module keys are plain strings at runtime (the TS union type is erased and
the code never validates membership, which is what claim C6 is about). -/
abbrev ModuleKey := String

/-- The five legal module keys of the TS `ModuleKey` union. -/
def knownModuleKeys : List String :=
  ["master_specification", "security_blueprint", "cost_analysis",
   "tech_stack_justification", "code_scaffolding"]

/-- Clause-level diff record (`ClauseDiff` in the shared types). -/
structure ClauseDiff where
  module : ModuleKey
  clausePath : String
  fieldLabel : String
  before : String
  after : String
  reason : String
  regulationTrigger : String
  severity : String
deriving DecidableEq

/-- The five module payloads of one spec version. -/
structure SpecModules where
  master_specification : Option Json
  security_blueprint : Option Json
  cost_analysis : Option Json
  tech_stack_justification : Option Json
  code_scaffolding : Option Json

/-- Dynamic indexing `spec.modules[moduleKey]` — an unknown key yields
`undefined`, modelled as `none`, exactly as in the source. -/
def SpecModules.lookup (m : SpecModules) (key : String) : Option Json :=
  if key = "master_specification" then m.master_specification
  else if key = "security_blueprint" then m.security_blueprint
  else if key = "cost_analysis" then m.cost_analysis
  else if key = "tech_stack_justification" then m.tech_stack_justification
  else if key = "code_scaffolding" then m.code_scaffolding
  else none

/-- One spec version as loaded by `mapRowToSpec` (fields used by the patch
flow; `versionLabel` is optional because the DB column may be null and the
source defaults it with `?? 'v1.0.0'`). -/
structure SpecVersion where
  id : String
  workspaceId : String
  parentId : Option String
  versionNumber : Nat
  versionLabel : Option String
  status : String
  jurisdictions : List String
  frameworks : List String
  modules : SpecModules

/-- Regulation payload carried by a patch job. -/
structure Regulation where
  id : String
  framework : String
  article : String
  title : String
  content : String
  jurisdiction : String
  severity : String

/-- Input of `patchSpec`. -/
structure PatchSpecInput where
  specVersionId : String
  workspaceId : String
  regulation : Regulation

/-- Result record returned by `patchSpec` (`SpecPatchResult`). -/
structure SpecPatchResult where
  specVersionId : String
  newVersionId : String
  newVersionNumber : Nat
  diffs : List ClauseDiff
  affectedModules : List ModuleKey
  regulationTrigger : String
  patchedAt : String

/-- The `spec_versions` row inserted in step 5 of `patchSpec`. -/
structure NewVersionRow where
  id : String
  workspace_id : String
  parent_id : String
  version_number : Nat
  version_label : String
  status : String
  change_reason : String
  triggered_by : String
  regulation_trigger : String
  master_specification : Option Json
  security_blueprint : Option Json
  cost_analysis : Option Json
  tech_stack_justification : Option Json
  code_scaffolding : Option Json

/-- The `regulation_impact_log` row written in step 7 of `patchSpec`. -/
structure ImpactLogRow where
  regulation_id : String
  regulation_ref : String
  workspace_id : String
  spec_version_id : String
  new_spec_version_id : Option String
  affected_modules : List ModuleKey
  diff_count : Nat
  status : String

/-- Everything one `patchSpec` run returns and persists: its return value,
the `spec_versions` row it inserted (if any), the `spec_diffs` audit rows and
the `regulation_impact_log` rows it wrote. -/
structure PatchOutcome where
  result : SpecPatchResult
  insertedVersion : Option NewVersionRow
  diffRows : List ClauseDiff
  impactLog : List ImpactLogRow

/- ── Diff engine (src/diff-engine.service.ts) ──────────────────────────── -/

/-- Model of the code-fence stripping applied to every text-generation
response before `JSON.parse`:
`text.replace(/^\x60\x60\x60(?:json)?\n?/, '').replace(/\n?\x60\x60\x60$/, '').trim()`. -/
def stripFence (text : String) : String :=
  let t1 :=
    if strStartsWith text "```json\n" then strDrop text 8
    else if strStartsWith text "```json" then strDrop text 7
    else if strStartsWith text "```\n" then strDrop text 4
    else if strStartsWith text "```" then strDrop text 3
    else text
  let t2 :=
    if strEndsWith t1 "\n```" then strDropRight t1 4
    else if strEndsWith t1 "```" then strDropRight t1 3
    else t1
  strTrim t2

/-- Model of `detectAffectedModules`.  The text-generation call is the oracle
argument `responseText`; `parseKeyArray` is the oracle for
`JSON.parse(cleaned) as ModuleKey[]` (`none` models a thrown parse error or a
non-array value).  On a parse failure the source falls back to the
conservative default pair; on success the parsed keys are returned as they
are — the `as ModuleKey[]` cast performs no runtime filtering. -/
def detectAffectedModules (parseKeyArray : String → Option (List String))
    (responseText : String) : List ModuleKey :=
  match parseKeyArray (stripFence responseText) with
  | some keys => keys
  | none => ["master_specification", "security_blueprint"]

/-- Model of `generateModuleDiffs`.  `responseText` is the text-generation
response for this module; `parseDiffArray` is the oracle for
`JSON.parse(cleaned) as ClauseDiff[]` (`none` = parse error, which the source
turns into an empty diff list).  Parsed diffs are stamped with the module key
and the regulation reference exactly as in the source. -/
def generateModuleDiffs (parseDiffArray : String → Option (List ClauseDiff))
    (responseText : String) (framework article : String)
    (moduleKey : ModuleKey) : List ClauseDiff :=
  match parseDiffArray (stripFence responseText) with
  | some diffs =>
      diffs.map (fun d =>
        { d with
            module := moduleKey
            regulationTrigger := framework ++ " " ++ article })
  | none => []

/-- Model of `applyDiffsToSpec`.  `applyOracle` stands for one
text-generation call plus `JSON.parse` of its response for one module
(`none` = the parse failed, in which case the source keeps the original
payload).  The source groups the diffs by `diff.module` and touches only the
grouped modules, starting from a copy of `spec.modules`; a module with no
diffs, or with no payload, is left untouched. -/
def applyDiffsToSpec (applyOracle : ModuleKey → Json → List ClauseDiff → Option Json)
    (modules : String → Option Json) (diffs : List ClauseDiff) :
    String → Option Json :=
  fun key =>
    match modules key with
    | none => none
    | some currentModule =>
        let moduleDiffs := diffs.filter (fun d => d.module = key)
        if moduleDiffs.isEmpty then some currentModule
        else
          match applyOracle key currentModule moduleDiffs with
          | some updated => some updated
          | none => some currentModule

/- ── Spec patcher (src/spec-patcher.service.ts) ────────────────────────── -/

/-- Oracle record for one `patchSpec` run: the outcome of every external call
the source makes, in the order the source makes them.  The three
text-generation calls (`client.messages.create` in `detectAffectedModules`,
`generateModuleDiffs` and `applyDiffsToSpec`) sit outside the try/catch blocks
of those functions — only the `JSON.parse` of the response text is caught — so
a rejected API call propagates and fails the whole run; their oracles are
therefore `Except`-valued, separately from the parse oracles.  Likewise the
two `publishEvent` awaits of step 8 can reject and fail the run after the
database writes; they carry their own failure oracles. -/
structure PatchEnv where
  /-- Step 1: the `spec_versions` fetch for the requested id after
  `mapRowToSpec`; `none` models both a fetch error and a missing row. -/
  fetchSpec : Option SpecVersion
  /-- Step 2: the module-impact classification call; `.error` models a
  rejected `client.messages.create` (un-caught in the source), `.ok` carries
  the response text. -/
  moduleResponse : Except String String
  /-- `JSON.parse` of a cleaned response as a string array (`none` = throw). -/
  parseKeyArray : String → Option (List String)
  /-- Step 3: the diff-generation call, per module key and module payload;
  `.error` models a rejected API call (un-caught), `.ok` the response text. -/
  diffResponse : ModuleKey → Json → Except String String
  /-- `JSON.parse` of a cleaned response as a diff array (`none` = throw). -/
  parseDiffArray : String → Option (List ClauseDiff)
  /-- Step 4: the apply call for one module's diffs; `.error` models a
  rejected API call (un-caught), `.ok` the response text. -/
  applyResponse : ModuleKey → Json → List ClauseDiff → Except String String
  /-- `JSON.parse` of a cleaned apply response (`none` = throw, in which case
  the source keeps the original module payload). -/
  parseApplyJson : String → Option Json
  /-- Step 5: whether the `spec_versions` insert succeeds. -/
  insertOk : Bool
  /-- Step 8: outcome of publishing the `spec.updated` event (`.error` models
  a rejected `publishEvent`, un-caught in the source). -/
  publishSpecUpdated : Except String Unit
  /-- Step 8: outcome of publishing the `spec.pr_requested` event. -/
  publishPrRequested : Except String Unit
  /-- `uuidv4()` for the new version id. -/
  newVersionId : String
  /-- `new Date().toISOString()`. -/
  now : String

/-- Step 3 of `patchSpec`: the per-module diff-generation loop.  Modules whose
payload is missing are skipped (`if (!moduleData) continue`); a rejected
generation call for any module aborts the loop (the `await` is un-caught);
otherwise the per-module results are concatenated in order. -/
def collectModuleDiffs (env : PatchEnv) (regulation : Regulation)
    (spec : SpecVersion) : List ModuleKey → Except String (List ClauseDiff)
  | [] => .ok []
  | moduleKey :: rest =>
      match spec.modules.lookup moduleKey with
      | none => collectModuleDiffs env regulation spec rest
      | some moduleData =>
          match env.diffResponse moduleKey moduleData with
          | .error e => .error e
          | .ok responseText =>
              match collectModuleDiffs env regulation spec rest with
              | .error e => .error e
              | .ok tail =>
                  .ok (generateModuleDiffs env.parseDiffArray responseText
                    regulation.framework regulation.article moduleKey ++ tail)

/-- First-occurrence deduplication: the iteration order of the source's
`Object.entries(diffsByModule)` is the order in which each module first
appears in the diff list. -/
def dedupFirstAux : List String → List String → List String
  | [], _ => []
  | k :: rest, seen =>
      if k ∈ seen then dedupFirstAux rest seen
      else k :: dedupFirstAux rest (k :: seen)

/-- Deduplicate a key list, keeping first occurrences in order. -/
def dedupFirst (l : List String) : List String := dedupFirstAux l []

/-- The first rejected apply call of `applyDiffsToSpec`'s loop, if any: the
loop walks the diff groups in first-occurrence order, skips groups whose
module has no payload, and awaits one generation call per remaining group —
an un-caught rejection there aborts the whole `patchSpec` run. -/
def firstApplyRejection (env : PatchEnv) (modules : String → Option Json)
    (diffs : List ClauseDiff) : Option String :=
  go (dedupFirst (diffs.map (fun d => d.module)))
where
  go : List String → Option String
    | [] => none
    | key :: rest =>
        match modules key with
        | none => go rest
        | some currentModule =>
            match env.applyResponse key currentModule
                (diffs.filter (fun d => d.module = key)) with
            | .error e => some e
            | .ok _ => go rest

/-- The per-module apply oracle `applyDiffsToSpec` consumes, assembled from
the response and parse oracles of the environment: response text cleaned of
code fences and parsed (`none` = parse failure, keep original).  The `.error`
branch is unreachable on the paths `patchSpec` takes it through, because
`firstApplyRejection` has already aborted the run. -/
def applyOracleOf (env : PatchEnv) : ModuleKey → Json → List ClauseDiff → Option Json :=
  fun key currentModule moduleDiffs =>
    match env.applyResponse key currentModule moduleDiffs with
    | .error _ => none
    | .ok responseText => env.parseApplyJson (stripFence responseText)

/-- Model of `bumpMinorVersion`'s regex `^v?(\d+)\.(\d+)\.(\d+)$`: an optional
leading `v`, then exactly three dot-separated digit groups.  Returns the major
group as matched (a string), the minor group parsed (`parseInt`), and the
patch group as matched. -/
def parseVersionTriple (s : String) : Option (String × Nat × String) :=
  let core := if strStartsWith s "v" then strDrop s 1 else s
  match splitOnChar '.' core with
  | [majorStr, minorStr, patchStr] =>
      match parseNatStr majorStr, parseNatStr minorStr, parseNatStr patchStr with
      | some _, some minor, some _ => some (majorStr, minor, patchStr)
      | _, _, _ => none
  | _ => none

/-- Model of `bumpMinorVersion`: on a regex match, rebuild the label as
`v<major>.<minor+1>.0`; otherwise append the synthetic suffix `.1`. -/
def bumpMinorVersion (current : String) : String :=
  match parseVersionTriple current with
  | some (majorStr, minor, _) =>
      "v" ++ majorStr ++ "." ++ toString (minor + 1) ++ ".0"
  | none => current ++ ".1"

/-- Shape predicate written from the spec's words, for comparison with the
code: a label of the literal `vMAJOR.MINOR.PATCH` shape, i.e. a mandatory
leading `v` followed by three dot-separated digit groups. -/
def matchesVSemverShape (s : String) : Bool :=
  strStartsWith s "v" &&
    (match splitOnChar '.' (strDrop s 1) with
     | [a, b, c] =>
         (parseNatStr a).isSome && (parseNatStr b).isSome && (parseNatStr c).isSome
     | _ => false)

/-- Model of `patchSpec`.  Mirrors the source step by step; the returned
`PatchOutcome` additionally records which rows the run persisted.  The
`.error` results are exactly the source's failure exits: the two
`throw new Error` sites (load failure, insert failure), the un-caught
text-generation rejections of steps 2–4, and the un-caught `publishEvent`
rejections of step 8 (which occur after the database writes; the model
reports only the thrown error for them, as the source's caller sees).  The
`spec_diffs` insert and the `regulation_impact_log` insert are not
error-checked in the source, so they carry no failure oracle. -/
def patchSpec (env : PatchEnv) (input : PatchSpecInput) : Except String PatchOutcome :=
  let regulationRef := input.regulation.framework ++ " " ++ input.regulation.article
  match env.fetchSpec with
  | none => .error ("[Patcher] Spec " ++ input.specVersionId ++ " not found")
  | some currentSpec =>
      match env.moduleResponse with
      | .error e => .error e
      | .ok classifierText =>
          let affectedModules := detectAffectedModules env.parseKeyArray classifierText
          if affectedModules.isEmpty then
            .ok {
              result := {
                specVersionId := input.specVersionId
                newVersionId := input.specVersionId
                newVersionNumber := currentSpec.versionNumber
                diffs := []
                affectedModules := []
                regulationTrigger := regulationRef
                patchedAt := env.now }
              insertedVersion := none
              diffRows := []
              impactLog := [] }
          else
            match collectModuleDiffs env input.regulation currentSpec affectedModules with
            | .error e => .error e
            | .ok allDiffs =>
                if allDiffs.isEmpty then
                  .ok {
                    result := {
                      specVersionId := input.specVersionId
                      newVersionId := input.specVersionId
                      newVersionNumber := currentSpec.versionNumber
                      diffs := []
                      affectedModules := affectedModules
                      regulationTrigger := regulationRef
                      patchedAt := env.now }
                    insertedVersion := none
                    diffRows := []
                    impactLog := [] }
                else
                  match firstApplyRejection env (currentSpec.modules.lookup) allDiffs with
                  | some e => .error e
                  | none =>
                      let updatedModules :=
                        applyDiffsToSpec (applyOracleOf env)
                          (currentSpec.modules.lookup) allDiffs
                      let newVersionNumber := currentSpec.versionNumber + 1
                      let versionLabel :=
                        bumpMinorVersion (currentSpec.versionLabel.getD "v1.0.0")
                      let newRow : NewVersionRow := {
                        id := env.newVersionId
                        workspace_id := input.workspaceId
                        parent_id := input.specVersionId
                        version_number := newVersionNumber
                        version_label := versionLabel
                        status := "active"
                        change_reason := "Compliance update: " ++ regulationRef ++ " — "
                          ++ toString allDiffs.length ++ " clause(s) patched"
                        triggered_by := "regulation_update"
                        regulation_trigger := regulationRef
                        master_specification := updatedModules "master_specification"
                        security_blueprint := updatedModules "security_blueprint"
                        cost_analysis := updatedModules "cost_analysis"
                        tech_stack_justification := updatedModules "tech_stack_justification"
                        code_scaffolding := updatedModules "code_scaffolding" }
                      if env.insertOk then
                        match env.publishSpecUpdated with
                        | .error e => .error e
                        | .ok _ =>
                            match env.publishPrRequested with
                            | .error e => .error e
                            | .ok _ =>
                                .ok {
                                  result := {
                                    specVersionId := input.specVersionId
                                    newVersionId := env.newVersionId
                                    newVersionNumber := newVersionNumber
                                    diffs := allDiffs
                                    affectedModules := affectedModules
                                    regulationTrigger := regulationRef
                                    patchedAt := env.now }
                                  insertedVersion := some newRow
                                  diffRows := allDiffs
                                  impactLog := [{
                                    regulation_id := input.regulation.id
                                    regulation_ref := regulationRef
                                    workspace_id := input.workspaceId
                                    spec_version_id := input.specVersionId
                                    new_spec_version_id := some env.newVersionId
                                    affected_modules := affectedModules
                                    diff_count := allDiffs.length
                                    status := "patched" }] }
                      else
                        .error "[Patcher] Failed to create new spec version"

/- ── Impact analyzer (src/spec-generator.service.ts, impact part) ──────── -/

/-- Candidate row returned by the `find_affected_specs` structural query. -/
structure CandidateSpec where
  spec_id : String
  workspace_id : String
  version_number : Nat
  frameworks : List String
  jurisdictions : List String
deriving DecidableEq

/-- `AffectedSpec` record returned by `findAffectedSpecs`. -/
structure AffectedSpec where
  specId : String
  workspaceId : String
  versionNumber : Nat
  frameworks : List String
  jurisdictions : List String
  semanticScore : ℚ
deriving DecidableEq

/-- Build the `AffectedSpec` record the source builds from a candidate row and
a semantic score. -/
def CandidateSpec.toAffected (c : CandidateSpec) (score : ℚ) : AffectedSpec :=
  { specId := c.spec_id
    workspaceId := c.workspace_id
    versionNumber := c.version_number
    frameworks := c.frameworks
    jurisdictions := c.jurisdictions
    semanticScore := score }

/-- The fixed semantic threshold `SEMANTIC_THRESHOLD = 0.65` of the source,
written as the literal rational 13/20 so that comparisons against it reduce in
the kernel. -/
def SEMANTIC_THRESHOLD : ℚ := ⟨13, 20, by norm_num, by norm_num⟩

/-- Model of `extractMasterSpecText`: concatenation of project name, summary,
problem statement, feature descriptions, data-flow descriptions and
non-functional requirements, with empty parts dropped (`filter(Boolean)`). -/
def extractMasterSpecText (masterSpec : Json) : String :=
  let parts : List String :=
    [masterSpec.getStr "projectName",
     masterSpec.getStr "projectSummary",
     masterSpec.getStr "problemStatement"]
    ++ (masterSpec.getArr "coreFeatures").map
        (fun f => f.getStr "name" ++ ": " ++ f.getStr "description")
    ++ (masterSpec.getArr "dataFlows").map
        (fun d => d.getStr "from" ++ " → " ++ d.getStr "to" ++ ": " ++ d.getStr "dataType")
    ++ (masterSpec.getArr "nonFunctionalRequirements").map
        (fun r => r.getStr "requirement")
  String.intercalate "\n" (parts.filter (fun p => !p.isEmpty))

/-- Dot product of two numeric vectors (the loop of `cosineSimilarity`
accumulates `dot`, `normA`, `normB` with exactly these summands). -/
def dotProduct (a b : List ℚ) : ℚ := (List.zipWith (fun x y => x * y) a b).sum

/-- Model of `cosineSimilarity`: 0 on a length mismatch, 0 on a zero
denominator, otherwise the dot product divided by the product of the vector
norms.  `sqrtFn` is the explicit parameter standing for `Math.sqrt`. -/
def cosineSimilarity (sqrtFn : ℚ → ℚ) (a b : List ℚ) : ℚ :=
  if a.length ≠ b.length then 0
  else
    let dot := dotProduct a b
    let normA := dotProduct a a
    let normB := dotProduct b b
    let denominator := sqrtFn normA * sqrtFn normB
    if denominator = 0 then 0 else dot / denominator

/-- Oracle record for one `findAffectedSpecs` run. -/
structure ImpactEnv where
  /-- Outcome of the `find_affected_specs` structural RPC (`.error` models a
  returned database error, which the source turns into a throw). -/
  queryCandidates : String → String → Except String (List CandidateSpec)
  /-- Per-candidate fetch of the `master_specification` payload; `none` models
  both a fetch error and a null payload (`if (!spec?.master_specification)
  continue`). -/
  fetchMasterSpec : String → Option Json
  /-- `embedQuery`: the embedding capability; `.error` models a thrown
  embedding failure, which the source does not catch. -/
  embedQuery : String → Except String (List ℚ)
  /-- `Math.sqrt`, used by `cosineSimilarity`. -/
  sqrtFn : ℚ → ℚ

/-- The per-candidate scoring loop of `findAffectedSpecs` (step 2 with
regulation text): fetch the candidate's master specification (skip the
candidate when absent), embed its extracted text (an embedding failure
propagates and aborts the loop, as in the source, where the `await` is not
wrapped in any try/catch), keep the candidate iff its similarity reaches the
threshold. -/
def scoreCandidates (env : ImpactEnv) (regulationEmbedding : List ℚ) :
    List CandidateSpec → Except String (List AffectedSpec)
  | [] => .ok []
  | c :: rest =>
      match env.fetchMasterSpec c.spec_id with
      | none => scoreCandidates env regulationEmbedding rest
      | some masterSpec =>
          let masterSpecText := extractMasterSpecText masterSpec
          match env.embedQuery masterSpecText with
          | .error e => .error e
          | .ok specEmbedding =>
              let similarity :=
                cosineSimilarity env.sqrtFn regulationEmbedding specEmbedding
              match scoreCandidates env regulationEmbedding rest with
              | .error e => .error e
              | .ok tail =>
                  .ok (if similarity ≥ SEMANTIC_THRESHOLD
                       then c.toAffected similarity :: tail else tail)

/-- The descending sort `results.sort((a, b) => b.semanticScore -
a.semanticScore)`, modelled as a stable sort by descending score. -/
def sortByScoreDesc (results : List AffectedSpec) : List AffectedSpec :=
  List.insertionSort (fun a b => a.semanticScore ≥ b.semanticScore) results

/-- Model of `findAffectedSpecs`: structural query, fail-open path when the
regulation text is absent, semantic filtering otherwise, and the final
descending sort.  The source guards with `if (!regulationContent)`, a JS
falsiness test: both an omitted argument and an *empty string* are falsy and
take the fail-open path (every candidate returned with score 1.0); only a
nonempty string reaches the semantic filter. -/
def findAffectedSpecs (env : ImpactEnv) (framework jurisdiction : String)
    (regulationContent : Option String) : Except String (List AffectedSpec) :=
  match env.queryCandidates framework jurisdiction with
  | .error e => .error ("[ImpactAnalyzer] DB query failed: " ++ e)
  | .ok candidates =>
      if candidates.isEmpty then .ok []
      else
        match regulationContent with
        | none => .ok (candidates.map (fun c => c.toAffected 1))
        | some content =>
            if content = "" then .ok (candidates.map (fun c => c.toAffected 1))
            else
              match env.embedQuery content with
              | .error e => .error e
              | .ok regulationEmbedding =>
                  match scoreCandidates env regulationEmbedding candidates with
                  | .error e => .error e
                  | .ok results => .ok (sortByScoreDesc results)

/- ── Version store (claim C1) ──────────────────────────────────────────── -/

/-- One `spec_versions` row, reduced to the fields the single-active invariant
is about. -/
structure VersionRow where
  id : String
  parentId : Option String
  status : String
deriving DecidableEq

/-- `RootOf s i r`: the version with id `i` reaches the lineage root with id
`r` by walking `parentId` links through the store `s`. -/
inductive RootOf (s : List VersionRow) : String → String → Prop where
  | base (v : VersionRow) (hv : v ∈ s) (hroot : v.parentId = none) :
      RootOf s v.id v.id
  | step (v : VersionRow) (p r : String) (hv : v ∈ s)
      (hp : v.parentId = some p) (h : RootOf s p r) : RootOf s v.id r

/-- Two ids belong to the same lineage when they reach a common root. -/
def SameLineage (s : List VersionRow) (i j : String) : Prop :=
  ∃ r, RootOf s i r ∧ RootOf s j r

/-- The single-active invariant: within any one lineage, at most one version
has status `active`. -/
def SingleActive (s : List VersionRow) : Prop :=
  ∀ v ∈ s, ∀ w ∈ s, v.status = "active" → w.status = "active" →
    SameLineage s v.id w.id → v.id = w.id

/-- The supersession performed on the parent row inside the unit of work. -/
def supersedeParent (parentId : String) (r : VersionRow) : VersionRow :=
  if r.id = parentId then { r with status := "superseded" } else r

/-- Modelled from the spec: the database-side unit of work behind step 5 of
`patchSpec`.  The source inserts the child row with `status: 'active'` and the
comment `Trigger auto-supersedes parent via DB trigger`; the trigger itself
lives in a SQL migration that is not part of the source tree, so its effect is
modelled from the spec — creating a child version transactionally flips the
parent from `active` to `superseded` in the same unit of work that inserts the
child. -/
def insertChildVersion (s : List VersionRow) (parentId : String)
    (child : VersionRow) : List VersionRow :=
  s.map (supersedeParent parentId) ++ [child]

/- ── Concrete instances used by the counterexamples and witnesses ──────── -/

/-- A concrete regulation payload. -/
def regGDPR : Regulation :=
  { id := "reg-1", framework := "GDPR", article := "Article 32",
    title := "Security of processing",
    content := "mandates 256-bit encryption", jurisdiction := "EU",
    severity := "critical" }

/-- A concrete patch-job input. -/
def inputGDPR : PatchSpecInput :=
  { specVersionId := "spec-1", workspaceId := "ws-1", regulation := regGDPR }

/-- A concrete security-blueprint payload whose value at clause path
`algorithm` is the string `AES-128`. -/
def payloadC2 : Json := Json.obj [("algorithm", Json.str "AES-128")]

/-- Modules of the concrete loaded version: only the security blueprint is
present. -/
def modsC2 : SpecModules :=
  { master_specification := none
    security_blueprint := some payloadC2
    cost_analysis := none
    tech_stack_justification := none
    code_scaffolding := none }

/-- The concrete loaded spec version. -/
def specBase : SpecVersion :=
  { id := "spec-1", workspaceId := "ws-1", parentId := none,
    versionNumber := 3, versionLabel := some "v1.2.0", status := "active",
    jurisdictions := ["EU"], frameworks := ["GDPR"], modules := modsC2 }

/-- A generated diff whose `before` does not match the value at its clause
path, as produced by the diff parser (before stamping). -/
def rawDiffC2 : ClauseDiff :=
  { module := "", clausePath := "algorithm",
    fieldLabel := "Encryption Algorithm", before := "AES-999",
    after := "AES-256", reason := "256-bit required",
    regulationTrigger := "", severity := "high" }

/-- The same diff after `generateModuleDiffs` stamps module and regulation. -/
def staleDiffC2 : ClauseDiff :=
  { module := "security_blueprint", clausePath := "algorithm",
    fieldLabel := "Encryption Algorithm", before := "AES-999",
    after := "AES-256", reason := "256-bit required",
    regulationTrigger := "GDPR Article 32", severity := "high" }

/-- Oracle environment for a full successful patch run in which the generated
diff's `before` is stale. -/
def envC2 : PatchEnv :=
  { fetchSpec := some specBase
    moduleResponse := .ok "resp-modules"
    parseKeyArray := fun _ => some ["security_blueprint"]
    diffResponse := fun _ _ => .ok "resp-diffs"
    parseDiffArray := fun _ => some [rawDiffC2]
    applyResponse := fun _ _ _ => .ok "resp-apply"
    parseApplyJson := fun _ => some (Json.obj [("algorithm", Json.str "AES-256")])
    insertOk := true
    publishSpecUpdated := .ok ()
    publishPrRequested := .ok ()
    newVersionId := "spec-2"
    now := "2026-10-12T00:00:00.000Z" }

/-- Environment in which the module-impact classifier returns the empty set. -/
def envC3 : PatchEnv := { envC2 with parseKeyArray := fun _ => some [] }

/-- The loaded version with a version label lacking the leading `v`. -/
def specC5 : SpecVersion := { specBase with versionLabel := some "1.2.3" }

/-- Environment for a full successful patch run over `specC5`. -/
def envC5 : PatchEnv := { envC2 with fetchSpec := some specC5 }

/-- Two concrete structural-query candidates. -/
def candA7 : CandidateSpec :=
  { spec_id := "sA", workspace_id := "w", version_number := 1,
    frameworks := ["GDPR"], jurisdictions := ["EU"] }

/-- Second candidate, see `candA7`. -/
def candB7 : CandidateSpec :=
  { spec_id := "sB", workspace_id := "w", version_number := 2,
    frameworks := ["GDPR"], jurisdictions := ["EU"] }

/-- Master specification of the first candidate; its extracted text is
`Alpha`. -/
def masterA7 : Json := Json.obj [("projectName", Json.str "Alpha")]

/-- Master specification of the second candidate; its extracted text is
`Beta`. -/
def masterB7 : Json := Json.obj [("projectName", Json.str "Beta")]

/-- Environment in which embedding the first candidate's master-spec text
fails while everything else succeeds. -/
def envC7 : ImpactEnv :=
  { queryCandidates := fun _ _ => .ok [candA7, candB7]
    fetchMasterSpec := fun sid => if sid = "sA" then some masterA7 else some masterB7
    embedQuery := fun t => if t = "Alpha" then .error "embed-fail" else .ok [1]
    sqrtFn := fun _ => 1 }

/-- Environment in which the structural query itself fails. -/
def envE7 : ImpactEnv := { envC7 with queryCandidates := fun _ _ => .error "db down" }

/-- Environment in which the first candidate's master-spec fetch returns no
payload. -/
def envN7 : ImpactEnv :=
  { envC7 with
      fetchMasterSpec := fun sid => if sid = "sA" then none else some masterB7 }

/-- Candidate for the positive impact-analysis runs. -/
def candW4 : CandidateSpec :=
  { spec_id := "s4", workspace_id := "w4", version_number := 7,
    frameworks := ["GDPR"], jurisdictions := ["EU"] }

/-- Master specification for the positive impact-analysis runs. -/
def masterW4 : Json := Json.obj [("projectName", Json.str "Gamma")]

/-- Environment for a positive impact-analysis run: one candidate, every
embedding is the vector `[1]`, so the similarity evaluates to 1. -/
def envW4 : ImpactEnv :=
  { queryCandidates := fun _ _ => .ok [candW4]
    fetchMasterSpec := fun _ => some masterW4
    embedQuery := fun _ => .ok [1]
    sqrtFn := fun _ => 1 }

/-- Environment for the empty-regulation-text run: embedding the empty string
would yield the empty vector, while the candidate's master-spec text embeds to
`[1]` — so the candidate's cosine score against its master-spec summary is 0,
below the threshold. -/
def envC4e : ImpactEnv :=
  { queryCandidates := fun _ _ => .ok [candW4]
    fetchMasterSpec := fun _ => some masterW4
    embedQuery := fun t => if t = "" then .ok [] else .ok [1]
    sqrtFn := fun _ => 1 }

/-- A concrete square-root stand-in that vanishes exactly at 0. -/
def sqrtW : ℚ → ℚ := fun x => if x = 0 then 0 else 1

/-- A lineage root row, active. -/
def rowA : VersionRow := { id := "a", parentId := none, status := "active" }

/-- A child row of `rowA`, inserted active. -/
def rowB : VersionRow := { id := "b", parentId := some "a", status := "active" }

/-- Totality of the descending-score ordering used by the final sort. -/
instance : IsTotal AffectedSpec (fun a b => a.semanticScore ≥ b.semanticScore) :=
  ⟨fun a b => le_total b.semanticScore a.semanticScore⟩

/-- Transitivity of the descending-score ordering used by the final sort. -/
instance : IsTrans AffectedSpec (fun a b => a.semanticScore ≥ b.semanticScore) :=
  ⟨fun _ _ _ hab hbc => le_trans hbc hab⟩

/- ── Helper lemmas for the version store ───────────────────────────────── -/

theorem supersedeParent_id (pid : String) (r : VersionRow) :
    (supersedeParent pid r).id = r.id := by
  unfold supersedeParent; split <;> rfl

theorem supersedeParent_parentId (pid : String) (r : VersionRow) :
    (supersedeParent pid r).parentId = r.parentId := by
  unfold supersedeParent; split <;> rfl

theorem mem_insertChildVersion {s : List VersionRow} {pid : String}
    {child x : VersionRow} :
    x ∈ insertChildVersion s pid child ↔
      (∃ u ∈ s, supersedeParent pid u = x) ∨ x = child := by
  simp [insertChildVersion, List.mem_append, List.mem_map]

theorem rootOf_exists_row {s : List VersionRow} {i r : String}
    (h : RootOf s i r) : ∃ v ∈ s, v.id = i := by
  cases h with
  | base v hv _ => exact ⟨v, hv, rfl⟩
  | step v p r hv _ _ => exact ⟨v, hv, rfl⟩

theorem rootOf_insert {s : List VersionRow} (pid : String) (child : VersionRow)
    {i r : String} (h : RootOf s i r) :
    RootOf (insertChildVersion s pid child) i r := by
  induction h with
  | base v hv hroot =>
      have hmem : supersedeParent pid v ∈ insertChildVersion s pid child :=
        List.mem_append_left _ (List.mem_map.mpr ⟨v, hv, rfl⟩)
      have hbase := RootOf.base (supersedeParent pid v) hmem
        (by rw [supersedeParent_parentId]; exact hroot)
      rwa [supersedeParent_id] at hbase
  | step v p r hv hp _ ih =>
      have hmem : supersedeParent pid v ∈ insertChildVersion s pid child :=
        List.mem_append_left _ (List.mem_map.mpr ⟨v, hv, rfl⟩)
      have hstep := RootOf.step (supersedeParent pid v) p r hmem
        (by rw [supersedeParent_parentId]; exact hp) ih
      rwa [supersedeParent_id] at hstep

theorem rootOf_insert_inv {s : List VersionRow} {parent child : VersionRow}
    (hp : parent ∈ s)
    (hfresh : ∀ u ∈ s, u.id ≠ child.id)
    (hnoref : ∀ u ∈ s, u.parentId ≠ some child.id)
    (hcp : child.parentId = some parent.id)
    {i r : String} (h : RootOf (insertChildVersion s parent.id child) i r) :
    (i = child.id ∧ RootOf s parent.id r) ∨ RootOf s i r := by
  induction h with
  | base v hv hroot =>
      rcases mem_insertChildVersion.mp hv with ⟨u, hu, hux⟩ | hx
      · right
        have hpar : u.parentId = none := by
          rw [← supersedeParent_parentId parent.id u, hux]; exact hroot
        have hb := RootOf.base u hu hpar
        have hid : v.id = u.id := by rw [← hux, supersedeParent_id]
        rw [hid]; exact hb
      · subst hx
        rw [hcp] at hroot
        exact Option.noConfusion hroot
  | step v p r hv hpv hrec ih =>
      rcases mem_insertChildVersion.mp hv with ⟨u, hu, hux⟩ | hx
      · have hpar : u.parentId = some p := by
          rw [← supersedeParent_parentId parent.id u, hux]; exact hpv
        rcases ih with ⟨hpc, _⟩ | hroot
        · exact absurd (hpc ▸ hpar) (hnoref u hu)
        · right
          have hid : v.id = u.id := by rw [← hux, supersedeParent_id]
          rw [hid]; exact RootOf.step u p r hu hpar hroot
      · subst hx
        have hpp : p = parent.id := by
          rw [hcp] at hpv; exact (Option.some.inj hpv).symm
        rcases ih with ⟨hpc, _⟩ | hroot
        · exact absurd (hpp.symm.trans hpc) (hfresh parent hp)
        · exact Or.inl ⟨rfl, hpp ▸ hroot⟩

theorem mem_active_insert_cases {s : List VersionRow} {pid : String}
    {child v : VersionRow} (hv : v ∈ insertChildVersion s pid child)
    (hact : v.status = "active") :
    (v ∈ s ∧ v.id ≠ pid) ∨ v = child := by
  rcases mem_insertChildVersion.mp hv with ⟨u, hu, hux⟩ | hx
  · by_cases hid : u.id = pid
    · exfalso
      have hsup : v.status = "superseded" := by
        rw [← hux]; simp [supersedeParent, hid]
      rw [hsup] at hact
      exact absurd hact (by decide)
    · left
      have hvu : v = u := by rw [← hux]; simp [supersedeParent, hid]
      rw [hvu]; exact ⟨hu, hid⟩
  · right; exact hx

/-- Claim C1: whenever a child version is created from an active parent (the
shape `patchSpec` step 5 produces: the child is inserted with status `active`
and `parentId` equal to the loaded version's id, and the same unit of work
flips the parent from `active` to `superseded`), the single-active invariant
is preserved: if at most one version per lineage was `active` before, the same
holds after the unit of work. -/
theorem insertChildVersion_preserves_single_active
    (s : List VersionRow) (parent child : VersionRow)
    (hp : parent ∈ s) (hact : parent.status = "active")
    (hfresh : ∀ u ∈ s, u.id ≠ child.id)
    (hnoref : ∀ u ∈ s, u.parentId ≠ some child.id)
    (hcp : child.parentId = some parent.id)
    (hcs : child.status = "active")
    (hinv : SingleActive s) :
    SingleActive (insertChildVersion s parent.id child) := by
  intro v hv w hw hvact hwact hlin
  obtain ⟨r, hvr, hwr⟩ := hlin
  rcases mem_active_insert_cases hv hvact with ⟨hvs, hvpid⟩ | hveq
  · rcases mem_active_insert_cases hw hwact with ⟨hws, hwpid⟩ | hweq
    · rcases rootOf_insert_inv hp hfresh hnoref hcp hvr with ⟨hvid, _⟩ | hvro
      · exact absurd hvid (hfresh v hvs)
      rcases rootOf_insert_inv hp hfresh hnoref hcp hwr with ⟨hwid, _⟩ | hwro
      · exact absurd hwid (hfresh w hws)
      exact hinv v hvs w hws hvact hwact ⟨r, hvro, hwro⟩
    · subst hweq
      rcases rootOf_insert_inv hp hfresh hnoref hcp hvr with ⟨hvid, _⟩ | hvro
      · exact absurd hvid (hfresh v hvs)
      rcases rootOf_insert_inv hp hfresh hnoref hcp hwr with ⟨_, hpro⟩ | hwro
      · exact absurd (hinv v hvs parent hp hvact hact ⟨r, hvro, hpro⟩) hvpid
      · obtain ⟨u, hus, huid⟩ := rootOf_exists_row hwro
        exact absurd huid (hfresh u hus)
  · subst hveq
    rcases mem_active_insert_cases hw hwact with ⟨hws, hwpid⟩ | hweq
    · rcases rootOf_insert_inv hp hfresh hnoref hcp hwr with ⟨hwid, _⟩ | hwro
      · exact absurd hwid (hfresh w hws)
      rcases rootOf_insert_inv hp hfresh hnoref hcp hvr with ⟨_, hpro⟩ | hvro
      · exact absurd (hinv w hws parent hp hwact hact ⟨r, hwro, hpro⟩).symm
          (fun hh => hwpid hh.symm)
      · obtain ⟨u, hus, huid⟩ := rootOf_exists_row hvro
        exact absurd huid (hfresh u hus)
    · rw [hweq]

/-- Claim C1 witness: a concrete one-row store with an active root stays
single-active after inserting an active child of that root. -/
theorem insertChildVersion_preserves_single_active_witness :
    SingleActive (insertChildVersion [rowA] "a" rowB) := by
  have h := insertChildVersion_preserves_single_active [rowA] rowA rowB
    (by simp)
    (by rfl)
    (by intro u hu; simp at hu; subst hu; decide)
    (by intro u hu; simp at hu; subst hu; decide)
    (by rfl)
    (by rfl)
    (by intro v hv w hw _ _ _; simp at hv hw; subst hv; subst hw; rfl)
  exact h

/- ── Unfolding lemmas for the scoring loop ─────────────────────────────── -/

theorem scoreCandidates_nil (env : ImpactEnv) (regEmb : List ℚ) :
    scoreCandidates env regEmb [] = .ok [] := rfl

theorem scoreCandidates_cons_none (env : ImpactEnv) (regEmb : List ℚ)
    (c : CandidateSpec) (rest : List CandidateSpec)
    (h : env.fetchMasterSpec c.spec_id = none) :
    scoreCandidates env regEmb (c :: rest) = scoreCandidates env regEmb rest := by
  simp only [scoreCandidates]; rw [h]

theorem scoreCandidates_cons_err (env : ImpactEnv) (regEmb : List ℚ)
    (c : CandidateSpec) (rest : List CandidateSpec) (m : Json) (e : String)
    (hm : env.fetchMasterSpec c.spec_id = some m)
    (he : env.embedQuery (extractMasterSpecText m) = .error e) :
    scoreCandidates env regEmb (c :: rest) = .error e := by
  simp only [scoreCandidates]; rw [hm]; dsimp only; rw [he]

theorem scoreCandidates_cons_ok (env : ImpactEnv) (regEmb : List ℚ)
    (c : CandidateSpec) (rest : List CandidateSpec) (m : Json) (emb : List ℚ)
    (hm : env.fetchMasterSpec c.spec_id = some m)
    (he : env.embedQuery (extractMasterSpecText m) = .ok emb) :
    scoreCandidates env regEmb (c :: rest) =
      match scoreCandidates env regEmb rest with
      | .error e => .error e
      | .ok tail =>
          .ok (if cosineSimilarity env.sqrtFn regEmb emb ≥ SEMANTIC_THRESHOLD
               then c.toAffected (cosineSimilarity env.sqrtFn regEmb emb) :: tail
               else tail) := by
  simp only [scoreCandidates]; rw [hm]; dsimp only; rw [he]

/- ── Claim C6 ──────────────────────────────────────────────────────────── -/

/-- Claim C6 counterexample: when the parsed response contains a key that is
not one of the five known module keys, `detectAffectedModules` returns it
unchanged — unknown keys are not dropped from the returned set. -/
theorem detectAffectedModules_returns_unknown_key :
    detectAffectedModules (fun _ => some ["not_a_module"]) "resp" = ["not_a_module"] ∧
    "not_a_module" ∉ knownModuleKeys := by
  exact ⟨rfl, by decide⟩

/-- Claim C6 amended: on an unparsable response `detectAffectedModules`
returns exactly the conservative default set (master specification and
security blueprint); on a parsable response it returns the parsed keys
verbatim, with no filtering of unknown keys (unknown keys are only ignored
later, when `patchSpec` finds no module payload under them). -/
theorem detectAffectedModules_fallback_and_passthrough
    (parseKeyArray : String → Option (List String)) (responseText : String) :
    (parseKeyArray (stripFence responseText) = none →
      detectAffectedModules parseKeyArray responseText =
        ["master_specification", "security_blueprint"]) ∧
    (∀ keys, parseKeyArray (stripFence responseText) = some keys →
      detectAffectedModules parseKeyArray responseText = keys) := by
  constructor
  · intro h; unfold detectAffectedModules; rw [h]
  · intro keys h; unfold detectAffectedModules; rw [h]

/-- Claim C6 witness: the fallback fires on a concrete unparsable response. -/
theorem detectAffectedModules_fallback_and_passthrough_witness :
    detectAffectedModules (fun _ => none) "garbage" =
      ["master_specification", "security_blueprint"] :=
  (detectAffectedModules_fallback_and_passthrough (fun _ => none) "garbage").1 rfl

/- ── Claim C8 ──────────────────────────────────────────────────────────── -/

/-- Claim C8: `applyDiffsToSpec` is a frame: a module with no diff in the
input list keeps exactly its input payload, a module whose generated
apply-result fails to parse keeps exactly its input payload, and a module can
only change when it has at least one diff and a parsable apply-result (in
which case it becomes that parsed result). -/
theorem applyDiffsToSpec_frame
    (applyOracle : ModuleKey → Json → List ClauseDiff → Option Json)
    (modules : String → Option Json) (diffs : List ClauseDiff) :
    (∀ key, diffs.filter (fun d => d.module = key) = [] →
      applyDiffsToSpec applyOracle modules diffs key = modules key) ∧
    (∀ key m, modules key = some m →
      applyOracle key m (diffs.filter (fun d => d.module = key)) = none →
      applyDiffsToSpec applyOracle modules diffs key = modules key) ∧
    (∀ key, applyDiffsToSpec applyOracle modules diffs key ≠ modules key →
      diffs.filter (fun d => d.module = key) ≠ [] ∧
      ∃ m u, modules key = some m ∧
        applyOracle key m (diffs.filter (fun d => d.module = key)) = some u ∧
        applyDiffsToSpec applyOracle modules diffs key = some u) := by
  refine ⟨?_, ?_, ?_⟩
  · intro key hnone
    unfold applyDiffsToSpec
    cases hm : modules key with
    | none => rfl
    | some current => rw [hnone]; rfl
  · intro key m hm hfail
    unfold applyDiffsToSpec
    rw [hm]
    dsimp only
    by_cases hempty : (diffs.filter (fun d => d.module = key)).isEmpty
    · rw [if_pos hempty]
    · rw [if_neg hempty, hfail]
  · intro key hne
    unfold applyDiffsToSpec at hne ⊢
    cases hm : modules key with
    | none => rw [hm] at hne; exact absurd rfl hne
    | some current =>
        rw [hm] at hne
        dsimp only at hne ⊢
        by_cases hempty : (diffs.filter (fun d => d.module = key)).isEmpty
        · rw [if_pos hempty] at hne; exact absurd rfl hne
        · rw [if_neg hempty] at hne ⊢
          cases ho : applyOracle key current (diffs.filter (fun d => d.module = key)) with
          | none => rw [ho] at hne; exact absurd rfl hne
          | some u =>
              exact ⟨fun hl => hempty (by rw [hl]; rfl), current, u, rfl, ho, rfl⟩

/-- Claim C8 witness: with no diffs at all, a module keeps its payload. -/
theorem applyDiffsToSpec_frame_witness :
    applyDiffsToSpec (fun _ _ _ => none) (fun _ => some Json.null) []
      "master_specification" = some Json.null :=
  (applyDiffsToSpec_frame (fun _ _ _ => none) (fun _ => some Json.null) []).1
    "master_specification" rfl

/- ── Claim C9 ──────────────────────────────────────────────────────────── -/

/-- Claim C9: when the regulation text is omitted, `findAffectedSpecs`
returns every structural candidate as affected with semantic score 1.0, with
no semantic filtering applied. -/
theorem findAffectedSpecs_no_text_fail_open (env : ImpactEnv)
    (framework jurisdiction : String) (candidates : List CandidateSpec)
    (hq : env.queryCandidates framework jurisdiction = .ok candidates) :
    findAffectedSpecs env framework jurisdiction none =
      .ok (candidates.map (fun c => c.toAffected 1)) := by
  unfold findAffectedSpecs
  rw [hq]
  dsimp only
  by_cases h : candidates.isEmpty
  · have hnil : candidates = [] := List.isEmpty_iff.mp h
    subst hnil
    rfl
  · rw [if_neg h]

/-- Claim C9 witness: the fail-open path on a concrete one-candidate query. -/
theorem findAffectedSpecs_no_text_fail_open_witness :
    findAffectedSpecs envW4 "GDPR" "EU" none = .ok [candW4.toAffected 1] :=
  findAffectedSpecs_no_text_fail_open envW4 "GDPR" "EU" [candW4] rfl

/- ── Claim C10 ─────────────────────────────────────────────────────────── -/

theorem dotProduct_self_nonneg (a : List ℚ) : 0 ≤ dotProduct a a := by
  induction a with
  | nil => simp [dotProduct]
  | cons x xs ih =>
      have hstep : dotProduct (x :: xs) (x :: xs) = x * x + dotProduct xs xs := by
        simp [dotProduct]
      rw [hstep]
      exact add_nonneg (mul_self_nonneg x) ih

/-- Claim C10: `cosineSimilarity` is total and never divides by zero: it
returns 0 on a length mismatch, returns 0 when either vector has zero norm
(the denominator guard), and otherwise returns the dot product divided by the
product of the norms.  `sqrtFn` stands for `Math.sqrt`; the hypothesis states
the only property of the square root the guard relies on — it vanishes
exactly on zero (for nonnegative arguments). -/
theorem cosineSimilarity_total_guarded (sqrtFn : ℚ → ℚ)
    (hsqrt : ∀ x : ℚ, 0 ≤ x → (sqrtFn x = 0 ↔ x = 0)) (a b : List ℚ) :
    (a.length ≠ b.length → cosineSimilarity sqrtFn a b = 0) ∧
    (a.length = b.length → dotProduct a a = 0 ∨ dotProduct b b = 0 →
      cosineSimilarity sqrtFn a b = 0) ∧
    (a.length = b.length → dotProduct a a ≠ 0 → dotProduct b b ≠ 0 →
      cosineSimilarity sqrtFn a b =
        dotProduct a b / (sqrtFn (dotProduct a a) * sqrtFn (dotProduct b b))) := by
  refine ⟨?_, ?_, ?_⟩
  · intro h
    unfold cosineSimilarity
    rw [if_pos h]
  · intro hlen hzero
    unfold cosineSimilarity
    rw [if_neg (by simp [hlen])]
    dsimp only
    have hden : sqrtFn (dotProduct a a) * sqrtFn (dotProduct b b) = 0 := by
      rcases hzero with h0 | h0
      · rw [(hsqrt _ (dotProduct_self_nonneg a)).mpr h0, zero_mul]
      · rw [(hsqrt _ (dotProduct_self_nonneg b)).mpr h0, mul_zero]
    rw [if_pos hden]
  · intro hlen hna hnb
    unfold cosineSimilarity
    rw [if_neg (by simp [hlen])]
    dsimp only
    have hden : sqrtFn (dotProduct a a) * sqrtFn (dotProduct b b) ≠ 0 :=
      mul_ne_zero
        (fun h => hna ((hsqrt _ (dotProduct_self_nonneg a)).mp h))
        (fun h => hnb ((hsqrt _ (dotProduct_self_nonneg b)).mp h))
    rw [if_neg hden]

/-- Claim C10 witness: a concrete length-mismatched pair yields 0, through a
concrete square-root stand-in vanishing exactly at 0. -/
theorem cosineSimilarity_total_guarded_witness :
    cosineSimilarity sqrtW [1] [] = 0 := by
  have hs : ∀ x : ℚ, 0 ≤ x → (sqrtW x = 0 ↔ x = 0) := by
    intro x _
    constructor
    · intro h
      by_contra hne
      simp [sqrtW, hne] at h
    · intro h; simp [sqrtW, h]
  exact (cosineSimilarity_total_guarded sqrtW hs [1] []).1 (by decide)

/- ── Claim C2 ──────────────────────────────────────────────────────────── -/

/-- Claim C2 counterexample: a concrete full patch run in which the generated
diff's `before` (`AES-999`) differs from the value actually present at its
`clausePath` in the loaded module payload (`AES-128`), yet `patchSpec`
succeeds and applies that exact diff instead of rejecting it — no before
validation exists anywhere on the path. -/
theorem patchSpec_applies_mismatched_before_diff :
    (patchSpec envC2 inputGDPR).map (fun o => o.result.diffs) = .ok [staleDiffC2] ∧
    valueAtClausePath payloadC2 staleDiffC2.clausePath = some (Json.str "AES-128") ∧
    staleDiffC2.before ≠ "AES-128" := by
  refine ⟨rfl, rfl, by decide⟩

/-- Claim C2 amended: `patchSpec` enforces no before-value contract.  Whether
the run succeeds is determined solely by the outcomes of its external calls —
the version load, the classifier call, the per-module diff-generation calls,
the per-module apply calls, the version insert and the two event publishes —
never by comparing a diff's `before` to the module payload: whenever those
calls all succeed the run succeeds, and an `ok` outcome carries either no
diffs (the early returns) or exactly the generated diff list, unvalidated and
unfiltered. -/
theorem patchSpec_no_before_validation (env : PatchEnv) (input : PatchSpecInput)
    (spec : SpecVersion) (classifierText : String) (allDiffs : List ClauseDiff)
    (hfetch : env.fetchSpec = some spec)
    (hmod : env.moduleResponse = .ok classifierText)
    (hgen : collectModuleDiffs env input.regulation spec
      (detectAffectedModules env.parseKeyArray classifierText) = .ok allDiffs)
    (happly : firstApplyRejection env (spec.modules.lookup) allDiffs = none)
    (hins : env.insertOk = true)
    (hpub1 : env.publishSpecUpdated = .ok ())
    (hpub2 : env.publishPrRequested = .ok ()) :
    (patchSpec env input).isOk = true ∧
    (∀ out, patchSpec env input = .ok out →
      out.result.diffs = [] ∨ out.result.diffs = allDiffs) := by
  unfold patchSpec
  rw [hfetch, hmod]
  dsimp only
  by_cases h1 : (detectAffectedModules env.parseKeyArray classifierText).isEmpty
  · rw [if_pos h1]
    refine ⟨rfl, fun out hout => ?_⟩
    injection hout with h'
    rw [← h']
    exact Or.inl rfl
  · rw [if_neg h1]
    rw [hgen]
    dsimp only
    by_cases h2 : allDiffs.isEmpty
    · rw [if_pos h2]
      refine ⟨rfl, fun out hout => ?_⟩
      injection hout with h'
      rw [← h']
      exact Or.inl rfl
    · rw [if_neg h2]
      rw [happly]
      dsimp only
      rw [if_pos hins, hpub1, hpub2]
      refine ⟨rfl, fun out hout => ?_⟩
      injection hout with h'
      rw [← h']
      exact Or.inr rfl

/-- Claim C2 amended witness: the concrete stale-diff run, with every external
call succeeding, succeeds. -/
theorem patchSpec_no_before_validation_witness :
    (patchSpec envC2 inputGDPR).isOk = true :=
  (patchSpec_no_before_validation envC2 inputGDPR specBase "resp-modules"
    [staleDiffC2] rfl rfl rfl rfl rfl rfl rfl).1

/- ── Claim C3 ──────────────────────────────────────────────────────────── -/

/-- Claim C3 counterexample: when the module-impact classifier returns the
empty set, the concrete run terminates successfully and creates no new
version, but it writes no `regulation_impact_log` row at all — in particular
no row with status `no_change` — and the returned `newVersionId` is the input
version id, not null. -/
theorem patchSpec_no_change_writes_no_impact_log :
    (patchSpec envC3 inputGDPR).map
      (fun o => (o.impactLog, o.insertedVersion.isSome, o.result.newVersionId)) =
      .ok ([], false, "spec-1") := by
  rfl

/-- Claim C3 amended: when the module-impact classifier returns an empty
module set, or the aggregate diff list comes back empty, `patchSpec`
terminates successfully, creates no new SpecVersion row, returns
`newVersionId` equal to the input version id, and writes no impact-log row at
all (the `regulation_impact_log` insert only happens on the full patch path,
with status `patched`). -/
theorem patchSpec_empty_affected_early_return (env : PatchEnv)
    (input : PatchSpecInput) (spec : SpecVersion) (classifierText : String)
    (hfetch : env.fetchSpec = some spec)
    (hmod : env.moduleResponse = .ok classifierText)
    (hempty : detectAffectedModules env.parseKeyArray classifierText = [] ∨
      collectModuleDiffs env input.regulation spec
        (detectAffectedModules env.parseKeyArray classifierText) = .ok []) :
    (patchSpec env input).map
      (fun o => (o.insertedVersion.isSome, o.impactLog, o.result.newVersionId,
        o.result.newVersionNumber, o.result.diffs)) =
      .ok (false, [], input.specVersionId, spec.versionNumber, []) := by
  unfold patchSpec
  rw [hfetch, hmod]
  dsimp only
  rcases hempty with h | h
  · rw [if_pos (by rw [h]; rfl)]
    rfl
  · by_cases h1 : (detectAffectedModules env.parseKeyArray classifierText).isEmpty
    · rw [if_pos h1]; rfl
    · rw [if_neg h1]
      rw [h]
      rfl

/-- Claim C3 amended witness: the concrete empty-classifier run. -/
theorem patchSpec_empty_affected_early_return_witness :
    (patchSpec envC3 inputGDPR).map
      (fun o => (o.insertedVersion.isSome, o.impactLog, o.result.newVersionId,
        o.result.newVersionNumber, o.result.diffs)) =
      .ok (false, [], "spec-1", 3, []) :=
  patchSpec_empty_affected_early_return envC3 inputGDPR specBase "resp-modules"
    rfl rfl (Or.inl rfl)

/- ── Claim C5 ──────────────────────────────────────────────────────────── -/

/-- Claim C5 counterexample: the label `1.2.3` does not match the literal
`vMAJOR.MINOR.PATCH` shape (no leading `v`), yet a full patch run over a
version carrying that label minor-bumps it to `v1.3.0` instead of appending a
synthetic suffix — the source regex makes the leading `v` optional. -/
theorem patchSpec_version_label_counterexample :
    matchesVSemverShape "1.2.3" = false ∧
    (patchSpec envC5 inputGDPR).map
      (fun o => o.insertedVersion.map (fun r => r.version_label)) =
      .ok (some "v1.3.0") ∧
    strStartsWith "v1.3.0" "1.2.3" = false := by
  refine ⟨rfl, rfl, rfl⟩

/-- Claim C5 amended: the new SpecVersion row created by step 5 of `patchSpec`
has id the fresh uuid, `parent_id` the loaded version's id, `version_number`
the loaded version number plus one, status `active`, and a label produced by
`bumpMinorVersion`; the label rule is: when the old label matches
`MAJOR.MINOR.PATCH` with an *optional* leading `v`, the minor component is
incremented and the patch component reset to 0 (the result always rendered
with a leading `v`); otherwise the synthetic suffix `.1` is appended, never
failing. -/
theorem patchSpec_new_version_fields (env : PatchEnv) (input : PatchSpecInput)
    (spec : SpecVersion) (classifierText : String) (allDiffs : List ClauseDiff)
    (hfetch : env.fetchSpec = some spec)
    (hmod : env.moduleResponse = .ok classifierText)
    (haff : ¬ (detectAffectedModules env.parseKeyArray classifierText).isEmpty = true)
    (hgen : collectModuleDiffs env input.regulation spec
      (detectAffectedModules env.parseKeyArray classifierText) = .ok allDiffs)
    (hdiffs : ¬ allDiffs.isEmpty = true)
    (happly : firstApplyRejection env (spec.modules.lookup) allDiffs = none)
    (hins : env.insertOk = true)
    (hpub1 : env.publishSpecUpdated = .ok ())
    (hpub2 : env.publishPrRequested = .ok ()) :
    ((patchSpec env input).map
      (fun o => o.insertedVersion.map
        (fun r => (r.id, r.parent_id, r.version_number, r.status, r.version_label))) =
      .ok (some (env.newVersionId, input.specVersionId, spec.versionNumber + 1,
        "active", bumpMinorVersion (spec.versionLabel.getD "v1.0.0")))) ∧
    (∀ s maj minor pat, parseVersionTriple s = some (maj, minor, pat) →
      bumpMinorVersion s = "v" ++ maj ++ "." ++ toString (minor + 1) ++ ".0") ∧
    (∀ s, parseVersionTriple s = none → bumpMinorVersion s = s ++ ".1") := by
  refine ⟨?_, ?_, ?_⟩
  · unfold patchSpec
    rw [hfetch, hmod]
    dsimp only
    rw [if_neg haff]
    rw [hgen]
    dsimp only
    rw [if_neg hdiffs]
    rw [happly]
    dsimp only
    rw [if_pos hins, hpub1, hpub2]
    rfl
  · intro s maj minor pat h
    unfold bumpMinorVersion
    rw [h]
  · intro s h
    unfold bumpMinorVersion
    rw [h]

/-- Claim C5 amended witness: the concrete run over the `v1.2.0` version
produces the row (`spec-2`, parent `spec-1`, number 4, `active`, `v1.3.0`). -/
theorem patchSpec_new_version_fields_witness :
    (patchSpec envC2 inputGDPR).map
      (fun o => o.insertedVersion.map
        (fun r => (r.id, r.parent_id, r.version_number, r.status, r.version_label))) =
      .ok (some ("spec-2", "spec-1", 4, "active", "v1.3.0")) := by
  have h := (patchSpec_new_version_fields envC2 inputGDPR specBase "resp-modules"
    [staleDiffC2] rfl rfl (by decide) rfl (by decide) rfl rfl rfl rfl).1
  exact h

/- ── Claim C7 ──────────────────────────────────────────────────────────── -/

/-- Claim C7 counterexample: a concrete run with two structural candidates in
which embedding the first candidate's master-spec text fails.  The whole
`findAffectedSpecs` call errors out — the second candidate is never scored and
nothing is returned — because the source wraps the per-candidate `embedQuery`
call in no try/catch. -/
theorem findAffectedSpecs_embed_failure_aborts_call :
    findAffectedSpecs envC7 "GDPR" "EU" (some "new regulation text") =
      .error "embed-fail" := by
  rfl

/-- Claim C7 amended: a structural-query failure is fatal for the whole call
(confirming that half of the claim); a candidate whose master-specification
fetch yields nothing is skipped without affecting the others; but an
embedding failure for any one candidate is also fatal for the whole call — the
failing candidate is not excluded and the remaining candidates are not
scored. -/
theorem findAffectedSpecs_failure_isolation (env : ImpactEnv)
    (framework jurisdiction : String) (rc : Option String) (e : String)
    (regEmb : List ℚ) (c : CandidateSpec) (rest : List CandidateSpec) :
    (env.queryCandidates framework jurisdiction = .error e →
      findAffectedSpecs env framework jurisdiction rc =
        .error ("[ImpactAnalyzer] DB query failed: " ++ e)) ∧
    (env.fetchMasterSpec c.spec_id = none →
      scoreCandidates env regEmb (c :: rest) = scoreCandidates env regEmb rest) ∧
    (∀ m, env.fetchMasterSpec c.spec_id = some m →
      env.embedQuery (extractMasterSpecText m) = .error e →
      scoreCandidates env regEmb (c :: rest) = .error e) := by
  refine ⟨?_, ?_, ?_⟩
  · intro h
    unfold findAffectedSpecs
    rw [h]
  · intro h
    exact scoreCandidates_cons_none env regEmb c rest h
  · intro m hm he
    exact scoreCandidates_cons_err env regEmb c rest m e hm he

/-- Claim C7 amended witness: the three failure modes on concrete runs — a
fatal structural failure, a skipped fetch-miss candidate, and a fatal
embedding failure. -/
theorem findAffectedSpecs_failure_isolation_witness :
    findAffectedSpecs envE7 "GDPR" "EU" (some "t") =
      .error ("[ImpactAnalyzer] DB query failed: " ++ "db down") ∧
    scoreCandidates envN7 [1] [candA7, candB7] = scoreCandidates envN7 [1] [candB7] ∧
    scoreCandidates envC7 [1] [candA7, candB7] = .error "embed-fail" := by
  refine ⟨?_, ?_, ?_⟩
  · exact (findAffectedSpecs_failure_isolation envE7 "GDPR" "EU" (some "t")
      "db down" [] candA7 []).1 rfl
  · exact (findAffectedSpecs_failure_isolation envN7 "GDPR" "EU" none
      "x" [1] candA7 [candB7]).2.1 rfl
  · exact (findAffectedSpecs_failure_isolation envC7 "GDPR" "EU" none
      "embed-fail" [1] candA7 [candB7]).2.2 masterA7 rfl rfl

/- ── Claim C4 ──────────────────────────────────────────────────────────── -/

theorem scoreCandidates_score_ge {env : ImpactEnv} {regEmb : List ℚ} :
    ∀ (l : List CandidateSpec) (out : List AffectedSpec),
      scoreCandidates env regEmb l = .ok out →
      ∀ x ∈ out, SEMANTIC_THRESHOLD ≤ x.semanticScore := by
  intro l
  induction l with
  | nil =>
      intro out h x hx
      rw [scoreCandidates_nil] at h
      injection h with h'
      rw [← h'] at hx
      cases hx
  | cons c rest ih =>
      intro out h x hx
      cases hf : env.fetchMasterSpec c.spec_id with
      | none =>
          rw [scoreCandidates_cons_none env regEmb c rest hf] at h
          exact ih out h x hx
      | some m =>
          cases he : env.embedQuery (extractMasterSpecText m) with
          | error e =>
              rw [scoreCandidates_cons_err env regEmb c rest m e hf he] at h
              exact Except.noConfusion h
          | ok emb =>
              rw [scoreCandidates_cons_ok env regEmb c rest m emb hf he] at h
              cases ht : scoreCandidates env regEmb rest with
              | error e => rw [ht] at h; exact Except.noConfusion h
              | ok tail =>
                  rw [ht] at h
                  dsimp only at h
                  by_cases hs : cosineSimilarity env.sqrtFn regEmb emb ≥ SEMANTIC_THRESHOLD
                  · rw [if_pos hs] at h
                    injection h with h'
                    rw [← h'] at hx
                    rcases List.mem_cons.mp hx with hx1 | hx2
                    · rw [hx1]; exact hs
                    · exact ih tail ht x hx2
                  · rw [if_neg hs] at h
                    injection h with h'
                    rw [← h'] at hx
                    exact ih tail ht x hx

theorem scoreCandidates_mem {env : ImpactEnv} {regEmb : List ℚ}
    {c : CandidateSpec} {m : Json} {emb : List ℚ}
    (hm : env.fetchMasterSpec c.spec_id = some m)
    (he : env.embedQuery (extractMasterSpecText m) = .ok emb)
    (hth : cosineSimilarity env.sqrtFn regEmb emb ≥ SEMANTIC_THRESHOLD) :
    ∀ (l : List CandidateSpec) (out : List AffectedSpec), c ∈ l →
      scoreCandidates env regEmb l = .ok out →
      c.toAffected (cosineSimilarity env.sqrtFn regEmb emb) ∈ out := by
  intro l
  induction l with
  | nil => intro out hc _; cases hc
  | cons d rest ih =>
      intro out hc h
      rcases List.mem_cons.mp hc with hceq | hc'
      · subst hceq
        rw [scoreCandidates_cons_ok env regEmb c rest m emb hm he] at h
        cases ht : scoreCandidates env regEmb rest with
        | error e => rw [ht] at h; exact Except.noConfusion h
        | ok tail =>
            rw [ht] at h
            dsimp only at h
            rw [if_pos hth] at h
            injection h with h'
            rw [← h']
            exact List.mem_cons_self _ _
      · cases hf : env.fetchMasterSpec d.spec_id with
        | none =>
            rw [scoreCandidates_cons_none env regEmb d rest hf] at h
            exact ih out hc' h
        | some md =>
            cases hed : env.embedQuery (extractMasterSpecText md) with
            | error e =>
                rw [scoreCandidates_cons_err env regEmb d rest md e hf hed] at h
                exact Except.noConfusion h
            | ok embd =>
                rw [scoreCandidates_cons_ok env regEmb d rest md embd hf hed] at h
                cases ht : scoreCandidates env regEmb rest with
                | error e => rw [ht] at h; exact Except.noConfusion h
                | ok tail =>
                    rw [ht] at h
                    dsimp only at h
                    by_cases hs : cosineSimilarity env.sqrtFn regEmb embd ≥ SEMANTIC_THRESHOLD
                    · rw [if_pos hs] at h
                      injection h with h'
                      rw [← h']
                      exact List.mem_cons_of_mem _ (ih tail hc' ht)
                    · rw [if_neg hs] at h
                      injection h with h'
                      rw [← h']
                      exact ih tail hc' ht

/-- Claim C4 counterexample: a call with regulation text *supplied but empty*.
The source's `if (!regulationContent)` falsiness test takes the fail-open
path, so the candidate is returned with semanticScore 1.0 even though its
cosine-similarity score against its master-specification summary (embedding
of the supplied text vs embedding of the summary) is 0, below the 0.65
threshold — refuting the membership-iff-threshold claim for that call. -/
theorem findAffectedSpecs_empty_text_fails_open :
    findAffectedSpecs envC4e "GDPR" "EU" (some "") = .ok [candW4.toAffected 1] ∧
    envC4e.embedQuery "" = .ok [] ∧
    envC4e.fetchMasterSpec candW4.spec_id = some masterW4 ∧
    envC4e.embedQuery (extractMasterSpecText masterW4) = .ok [1] ∧
    ¬ (cosineSimilarity envC4e.sqrtFn [] [1] ≥ SEMANTIC_THRESHOLD) := by
  refine ⟨rfl, rfl, rfl, rfl, by decide⟩

/-- Claim C4 amended: for a successful `findAffectedSpecs` run with *nonempty*
regulation text, the returned list is sorted in descending order of
`semanticScore`, and a Stage-1 candidate (whose master specification loads
and embeds) appears in the result exactly when its cosine similarity against
the spec's master-specification summary reaches the threshold 0.65; a
supplied empty string is falsy and takes the same fail-open path as an
omitted text — every Stage-1 candidate returned with semanticScore 1.0, no
filtering. -/
theorem findAffectedSpecs_threshold_filter (env : ImpactEnv)
    (framework jurisdiction content : String) (regEmb : List ℚ)
    (res : List AffectedSpec)
    (hres : findAffectedSpecs env framework jurisdiction (some content) = .ok res)
    (hemb : env.embedQuery content = .ok regEmb)
    (hne : content ≠ "") :
    List.Sorted (fun a b : AffectedSpec => a.semanticScore ≥ b.semanticScore) res ∧
    ∀ candidates, env.queryCandidates framework jurisdiction = .ok candidates →
      (∀ c ∈ candidates, ∀ m, env.fetchMasterSpec c.spec_id = some m →
        ∀ emb, env.embedQuery (extractMasterSpecText m) = .ok emb →
          (c.toAffected (cosineSimilarity env.sqrtFn regEmb emb) ∈ res ↔
            cosineSimilarity env.sqrtFn regEmb emb ≥ SEMANTIC_THRESHOLD)) ∧
      findAffectedSpecs env framework jurisdiction (some "") =
        .ok (candidates.map (fun c => c.toAffected 1)) := by
  unfold findAffectedSpecs at hres
  cases hq : env.queryCandidates framework jurisdiction with
  | error e => rw [hq] at hres; exact Except.noConfusion hres
  | ok candidates0 =>
      rw [hq] at hres
      dsimp only at hres
      by_cases hc0 : candidates0.isEmpty
      · rw [if_pos hc0] at hres
        injection hres with h'
        constructor
        · rw [← h']; exact List.sorted_nil
        · intro candidates hcand
          have hceq : candidates = candidates0 := (Except.ok.inj hcand).symm
          subst hceq
          have hnil : candidates = [] := List.isEmpty_iff.mp hc0
          subst hnil
          constructor
          · intro c hc m hm emb he
            cases hc
          · unfold findAffectedSpecs
            rw [hq]
            rfl
      · rw [if_neg hc0] at hres
        rw [if_neg hne] at hres
        rw [hemb] at hres
        dsimp only at hres
        cases hsc : scoreCandidates env regEmb candidates0 with
        | error e => rw [hsc] at hres; exact Except.noConfusion hres
        | ok outs =>
            rw [hsc] at hres
            dsimp only at hres
            injection hres with h'
            have hperm := List.perm_insertionSort
              (fun a b : AffectedSpec => a.semanticScore ≥ b.semanticScore) outs
            constructor
            · rw [← h']
              unfold sortByScoreDesc
              exact List.sorted_insertionSort _ outs
            · intro candidates hcand
              have hceq : candidates = candidates0 := (Except.ok.inj hcand).symm
              subst hceq
              constructor
              · intro c hc m hm emb he
                constructor
                · intro hmem
                  rw [← h'] at hmem
                  unfold sortByScoreDesc at hmem
                  exact scoreCandidates_score_ge candidates outs hsc _
                    ((hperm.mem_iff).mp hmem)
                · intro hth
                  have hmem0 := scoreCandidates_mem hm he hth candidates outs hc hsc
                  rw [← h']
                  unfold sortByScoreDesc
                  exact (hperm.mem_iff).mpr hmem0
              · unfold findAffectedSpecs
                rw [hq]
                dsimp only
                rw [if_neg hc0]
                rfl

/-- Claim C4 amended witness: a concrete run with nonempty text in which the
single candidate scores similarity 1, passes the 0.65 threshold, and is
returned; the same environment queried with the empty string fails open. -/
theorem findAffectedSpecs_threshold_filter_witness :
    (candW4.toAffected 1 ∈ [candW4.toAffected 1] ∧ (1 : ℚ) ≥ SEMANTIC_THRESHOLD) ∧
    findAffectedSpecs envW4 "GDPR" "EU" (some "") = .ok [candW4.toAffected 1] := by
  have hth : (1 : ℚ) ≥ SEMANTIC_THRESHOLD := by decide
  have hsim : cosineSimilarity envW4.sqrtFn [1] [1] = 1 := by
    simp [cosineSimilarity, dotProduct, envW4]
  have h1 : scoreCandidates envW4 [1] [candW4] = .ok [candW4.toAffected 1] := by
    rw [scoreCandidates_cons_ok envW4 [1] candW4 [] masterW4 [1] rfl rfl]
    rw [scoreCandidates_nil]
    dsimp only
    rw [hsim]
    rw [if_pos hth]
  have hres : findAffectedSpecs envW4 "GDPR" "EU" (some "reg") =
      .ok [candW4.toAffected 1] := by
    have hstep : findAffectedSpecs envW4 "GDPR" "EU" (some "reg") =
        (match scoreCandidates envW4 [1] [candW4] with
         | .error e => .error e
         | .ok results => .ok (sortByScoreDesc results)) := rfl
    rw [hstep, h1]
    rfl
  have h := findAffectedSpecs_threshold_filter envW4 "GDPR" "EU" "reg" [1]
    [candW4.toAffected 1] hres rfl (by decide)
  have hparts := h.2 [candW4] rfl
  have h2 := hparts.1 candW4 (by simp) masterW4 rfl [1] rfl
  rw [hsim] at h2
  exact ⟨⟨h2.mpr hth, hth⟩, hparts.2⟩
